import Mathlib

/-!
Verification development for the `ccs_mobile` client.

This file gives a shallow embedding of the session / authentication layer of the
application (`src/contexts/AuthContext.tsx`), of the role probe of the tab layout
(`src/app/(tabs)/_layout.tsx`), and of the list-sorting logic shared by the
repository and groups screens (`src/app/(tabs)/repository.tsx`,
`src/app/(tabs)/groups.tsx`), and proves or refutes the specification claims
about them.

Modelling conventions:
* `AsyncStorage` is a record (`Store`) with the two keys the code uses,
  `authToken` and `userData`; `none` models an absent key (JS `null`).
* React state is threaded explicitly (`SessionState`); the JS value
  `boolean | null` of `isAuthenticated` becomes `Option Bool`.
* Every external `fetch` is an input of type `FetchOutcome`: either a response
  value or a thrown network error.
* Observable effects are collected in a trace (`List Ev`); a `throw` appends a
  `reject` event and yields `Except.error`, so the order of storage writes, state
  updates and rejections is visible.
-/

/-- Persistent credential store (`AsyncStorage`): the code uses exactly the keys
`authToken` and `userData`. `none` models an absent key. -/
structure Store where
  authToken : Option String
  userData : Option String
  deriving DecidableEq

/-- Server-defined user record; the model keeps an opaque `id` plus the four
alternate role fields probed by the client (`roles[]`, `user_roles[]`,
`primary_role`, legacy `role`). `none` models an absent (`undefined`) field. -/
structure UserRecord where
  id : String := ""
  roles : Option (List String) := none
  user_roles : Option (List String) := none
  primary_role : Option String := none
  role : Option String := none
  deriving DecidableEq

/-- In-memory session state of the `AuthProvider`: `isAuthenticated` starts as
JS `null` (`none`), `user` starts as `null`. -/
structure SessionState where
  isAuthenticated : Option Bool
  user : Option UserRecord
  deriving DecidableEq

/-- Parsed JSON body of a response, with the fields the client reads:
`message`, the Laravel `errors` map (key-ordered association list), and — for the
login endpoint — `token` and `user`.  For `/api/user` the body is the user
record itself, carried in `user`. -/
structure Json where
  message : Option String := none
  errors : Option (List (String × List String)) := none
  token : String := ""
  user : UserRecord := {}
  deriving DecidableEq

/-- HTTP response as the client observes it. `json = none` models a body whose
JSON parse fails. -/
structure Response where
  status : Nat
  statusText : String := ""
  json : Option Json := none
  deriving DecidableEq

/-- JS `response.ok`: status in the inclusive range 200–299. -/
def Response.ok (r : Response) : Bool :=
  200 ≤ r.status && r.status ≤ 299

/-- Outcome of one external `fetch` call: a response, or a thrown network
error. -/
inductive FetchOutcome where
  | resp (r : Response)
  | netThrow (e : String)
  deriving DecidableEq

/-- Observable events, in order of occurrence: storage writes and removals,
`setIsAuthenticated` calls, `setUser` calls, and rejections (thrown errors). -/
inductive Ev where
  | storeSet (key val : String)
  | storeRemove (key : String)
  | flagSet (b : Bool)
  | userSet (u : UserRecord)
  | reject (msg : String)
  deriving DecidableEq

/-- Result of running one of the async operations: its returned value or thrown
error, the final storage and session state, and the trace of observable
events. -/
structure AuthResult (α : Type) where
  result : Except String α
  store : Store
  session : SessionState
  trace : List Ev

/-- Headers produced by `getAuthHeaders`. -/
structure Headers where
  contentType : String
  accept : String
  authorization : String
  deriving DecidableEq

/-- JS truthiness of a `string | null` value: `null` and the empty string are
falsy. -/
def jsTruthyStr : Option String → Bool
  | none => false
  | some s => !(s == "")

/-- Embedding of `getAuthHeaders` (AuthContext.tsx lines 53–60): re-reads the
token from storage and builds the header set; the template literal
`Bearer ${token}` renders a missing token (JS `null`) as the string "null". -/
def getAuthHeaders (store : Store) : Headers :=
  { contentType := "application/json"
    accept := "application/json"
    authorization := "Bearer " ++ (match store.authToken with
      | some t => t
      | none => "null") }

/-- Model of `AsyncStorage.setItem("authToken", t)`. -/
def setAuthToken (store : Store) (t : String) : Store :=
  { store with authToken := some t }

/-- Embedding of `logout` (AuthContext.tsx lines 128–164).  With no (truthy)
token it only clears the flag; otherwise it calls the logout endpoint and clears
both storage keys and the flag regardless of the response, rethrowing a network
error after clearing. -/
def logout (store : Store) (session : SessionState) (net : FetchOutcome) :
    AuthResult Unit :=
  if !(jsTruthyStr store.authToken) then
    { result := .ok ()
      store := store
      session := { session with isAuthenticated := some false }
      trace := [.flagSet false] }
  else
    match net with
    | .resp _ =>
        { result := .ok ()
          store := { store with authToken := none, userData := none }
          session := { session with isAuthenticated := some false }
          trace := [.storeRemove "authToken", .storeRemove "userData",
                    .flagSet false] }
    | .netThrow e =>
        { result := .error e
          store := { store with authToken := none, userData := none }
          session := { session with isAuthenticated := some false }
          trace := [.storeRemove "authToken", .storeRemove "userData",
                    .flagSet false, .reject e] }

/-- Error message thrown on a 401 response (AuthContext.tsx line 78). -/
def sessionExpiredMessage : String := "Session expired. Please login again."

/-- Generic error message for a non-2xx, non-401 response (AuthContext.tsx
line 88): the template `API Error: ${status} ${statusText}`. -/
def apiErrorMessage (r : Response) : String :=
  "API Error: " ++ toString r.status ++ " " ++ r.statusText

/-- Embedding of `authenticatedFetch` (AuthContext.tsx lines 62–92).  `net` is
the outcome of the main request, `logoutNet` the outcome of the logout
endpoint call made on a 401.  On 401 the code first awaits `logout()` and only
then throws the session-expired error; if `logout` itself throws, that error
propagates instead. -/
def authenticatedFetch (store : Store) (session : SessionState)
    (net : FetchOutcome) (logoutNet : FetchOutcome) : AuthResult Response :=
  match net with
  | .netThrow e =>
      { result := .error e, store := store, session := session
        trace := [.reject e] }
  | .resp r =>
      if r.status = 401 then
        let lr := logout store session logoutNet
        match lr.result with
        | .ok _ =>
            { result := .error sessionExpiredMessage
              store := lr.store
              session := lr.session
              trace := lr.trace ++ [.reject sessionExpiredMessage] }
        | .error e =>
            { result := .error e, store := lr.store, session := lr.session
              trace := lr.trace }
      else if !r.ok then
        { result := .error (apiErrorMessage r), store := store
          session := session
          trace := [.reject (apiErrorMessage r)] }
      else
        { result := .ok r, store := store, session := session, trace := [] }

/-- Embedding of `fetchUser` (AuthContext.tsx lines 29–38): fetches
`/api/user`, stores the parsed body via `setUser`, and rethrows any error after
logging it. -/
def fetchUser (store : Store) (session : SessionState)
    (net : FetchOutcome) (logoutNet : FetchOutcome) : AuthResult Unit :=
  let af := authenticatedFetch store session net logoutNet
  match af.result with
  | .error e =>
      { result := .error e, store := af.store, session := af.session
        trace := af.trace }
  | .ok r =>
      match r.json with
      | none =>
          { result := .error "JSON parse error", store := af.store
            session := af.session
            trace := af.trace ++ [.reject "JSON parse error"] }
      | some d =>
          { result := .ok (), store := af.store
            session := { af.session with user := some d.user }
            trace := af.trace ++ [.userSet d.user] }

/-- Embedding of `checkAuthStatus` (AuthContext.tsx lines 40–51): reads the
token, sets the flag to its truthiness, and, when a token is present, awaits
`fetchUser`; an error thrown by `fetchUser` is caught and the flag is set to
`false`. -/
def checkAuthStatus (store : Store) (session : SessionState)
    (net : FetchOutcome) (logoutNet : FetchOutcome) : AuthResult Unit :=
  let s1 : SessionState :=
    { session with isAuthenticated := some (jsTruthyStr store.authToken) }
  if jsTruthyStr store.authToken then
    let fu := fetchUser store s1 net logoutNet
    match fu.result with
    | .ok _ =>
        { result := .ok (), store := fu.store, session := fu.session
          trace := (Ev.flagSet true :: fu.trace) }
    | .error _ =>
        { result := .ok (), store := fu.store
          session := { fu.session with isAuthenticated := some false }
          trace := (Ev.flagSet true :: fu.trace) ++ [.flagSet false] }
  else
    { result := .ok (), store := store, session := s1
      trace := [.flagSet false] }

/-- Model of `Array.prototype.join(", ")` as used on the flattened Laravel
validation errors. -/
def joinComma : List String → String
  | [] => ""
  | [s] => s
  | s :: rest => s ++ ", " ++ joinComma rest

/-- Model of `JSON.stringify(data.user)`: an opaque serialisation of the user
record. -/
def stringifyUser (u : UserRecord) : String :=
  "\x7b\"id\":\"" ++ u.id ++ "\"\x7d"

/-- Message built for a 422 login response (AuthContext.tsx lines 109–113):
`Object.values(data.errors || \x7b\x7d).flat().join(", ")`. -/
def validationErrorsMessage (d : Json) : String :=
  joinComma (((d.errors.getD []).map Prod.snd).flatten)

/-- Message thrown for a non-ok, non-422 login response (AuthContext.tsx
line 115): `data.message || "Login failed"` with JS falsiness of the empty
string. -/
def loginFailedMessage (d : Json) : String :=
  match d.message with
  | some m => if m = "" then "Login failed" else m
  | none => "Login failed"

/-- Embedding of `login` (AuthContext.tsx lines 94–126).  On success it stores
the token and the stringified user record and sets the flag; it does not call
`setUser`, so the in-memory `user` field is untouched. -/
def login (store : Store) (session : SessionState) (email password : String)
    (net : FetchOutcome) : AuthResult Unit :=
  match net with
  | .netThrow e =>
      { result := .error e, store := store, session := session
        trace := [.reject e] }
  | .resp r =>
      match r.json with
      | none =>
          { result := .error "JSON parse error", store := store
            session := session
            trace := [.reject "JSON parse error"] }
      | some d =>
          if !r.ok then
            if r.status = 422 then
              { result := .error (validationErrorsMessage d), store := store
                session := session
                trace := [.reject (validationErrorsMessage d)] }
            else
              { result := .error (loginFailedMessage d), store := store
                session := session
                trace := [.reject (loginFailedMessage d)] }
          else
            { result := .ok ()
              store := { store with authToken := some d.token
                                    userData := some (stringifyUser d.user) }
              session := { session with isAuthenticated := some true }
              trace := [.storeSet "authToken" d.token,
                        .storeSet "userData" (stringifyUser d.user),
                        .flagSet true] }

/-- Model of `String.prototype.toLowerCase()` (ASCII-faithful). -/
def jsToLowerCase (s : String) : String :=
  ⟨s.data.map Char.toLower⟩

/-- Case-insensitive student test applied to a single role string
(`role.toLowerCase() === "student" || role.toLowerCase() === "students"`). -/
def lowIsStudent (s : String) : Bool :=
  jsToLowerCase s == "student" || jsToLowerCase s == "students"

/-- Embedding of the `isStudent` probe of `src/app/(tabs)/_layout.tsx`
lines 21–43: `user && ((user.roles && user.roles.some(p)) || (user.user_roles &&
user.user_roles.some(p)) || (user.primary_role && p(user.primary_role)) ||
(user.role && p(user.role)))`, where empty strings are falsy. -/
def isStudent (user : Option UserRecord) : Bool :=
  match user with
  | none => false
  | some u =>
      (match u.roles with
        | some rs => rs.any lowIsStudent
        | none => false) ||
      (match u.user_roles with
        | some rs => rs.any lowIsStudent
        | none => false) ||
      (match u.primary_role with
        | some p => !(p == "") && lowIsStudent p
        | none => false) ||
      (match u.role with
        | some p => !(p == "") && lowIsStudent p
        | none => false)

/-- Strict lexicographic comparison of code-unit sequences: the behaviour of
`String.prototype.localeCompare` on the ASCII sort keys this client uses. -/
def lexLt : List Char → List Char → Bool
  | [], [] => false
  | [], _ :: _ => true
  | _ :: _, [] => false
  | a :: as, b :: bs =>
      if a < b then true else if b < a then false else lexLt as bs

/-- Model of `a.localeCompare(b)`: negative, zero or positive per lexical
order. -/
def localeCompare (a b : String) : Int :=
  if lexLt a.data b.data then -1 else if lexLt b.data a.data then 1 else 0

/-- Sort direction of the screens' sort state. -/
inductive SortDir where
  | asc
  | desc
  deriving DecidableEq

/-- Sort state of a screen: the current sort key (a field name) and
direction. -/
structure SortState where
  sortKey : String
  sortDirection : SortDir
  deriving DecidableEq

/-- Initial sort state of the repository screen
(`useState<keyof Project>("title")`, `useState<"asc" | "desc">("desc")`). -/
def repositoryInitialSort : SortState :=
  { sortKey := "title", sortDirection := .desc }

/-- Initial sort state of the groups screen (`useState<keyof Group>("name")`,
`useState<"asc" | "desc">("asc")`). -/
def groupsInitialSort : SortState :=
  { sortKey := "name", sortDirection := .asc }

/-- Embedding of `handleSort` (repository.tsx lines 89–96, groups.tsx has the
identical function): pressing the control of the current key toggles the
direction; pressing another key selects it ascending. -/
def handleSort (s : SortState) (key : String) : SortState :=
  if s.sortKey = key then
    { s with sortDirection := match s.sortDirection with
        | .asc => .desc
        | .desc => .asc }
  else
    { sortKey := key, sortDirection := .asc }

/-- Comparator passed to `Array.prototype.sort` (repository.tsx lines 82–87,
groups.tsx lines 98–102): `dir === "asc" ? String(a[key]).localeCompare(String(b[key]))
: String(b[key]).localeCompare(String(a[key]))`.  `proj a key` models
`String(a[key])`. -/
def sortComparator {α : Type} (dir : SortDir) (key : String)
    (proj : α → String → String) (a b : α) : Int :=
  match dir with
  | .asc => localeCompare (proj a key) (proj b key)
  | .desc => localeCompare (proj b key) (proj a key)

/-- Ordering relation induced by the comparator: `a` may come before `b` when
the comparator is non-positive. -/
def sortRel {α : Type} (dir : SortDir) (key : String)
    (proj : α → String → String) (a b : α) : Prop :=
  sortComparator dir key proj a b ≤ 0

instance sortRelDecidable {α : Type} (dir : SortDir) (key : String)
    (proj : α → String → String) : DecidableRel (sortRel dir key proj) :=
  fun _ _ => Int.decLe _ _

/-- Embedding of `sortedProjects` / `sortedGroups`: the list sorted by the
comparator for the current sort state (a comparison sort consistent with the
comparator, as `Array.prototype.sort` is). -/
def sortedItems {α : Type} (s : SortState) (proj : α → String → String)
    (l : List α) : List α :=
  List.insertionSort (sortRel s.sortDirection s.sortKey proj) l

/-- Student test on one optional scalar role field, as the code performs it:
`field && (field.toLowerCase() === "student" || ...)` — an absent or empty
(falsy) field never matches. -/
def optRoleHolds (o : Option String) : Bool :=
  match o with
  | some p => !(p == "") && lowIsStudent p
  | none => false

/-- Projection used in concrete sort examples: an item is its own sort-key
string under every field name (`String(a[k]) = a`). -/
def projId : String → String → String :=
  fun s _ => s

/-- Fixture: storage holding a token and cached user data. -/
def tokStore : Store := { authToken := some "tok", userData := some "ud" }

/-- Fixture: empty storage. -/
def emptyStore : Store := { authToken := none, userData := none }

/-- Fixture: storage with no token but leftover cached user data (reachable,
for example, after a process death between the two independent key writes). -/
def leftoverStore : Store := { authToken := none, userData := some "leftover" }

/-- Fixture: the initial session state (`useState(null)`, `useState(null)`). -/
def nullSession : SessionState := { isAuthenticated := none, user := none }

/-- Fixture: a signed-in session state with no user record loaded. -/
def trueSession : SessionState := { isAuthenticated := some true, user := none }

/-- Fixture: a signed-out session state. -/
def falseSession : SessionState := { isAuthenticated := some false, user := none }

/-- Fixture: a plain 200 response. -/
def resp200 : Response := { status := 200 }

/-- Fixture: a 401 response. -/
def resp401 : Response := { status := 401 }

/-- Fixture: a 500 response whose JSON body carries a message field. -/
def resp500msg : Response :=
  { status := 500, statusText := "Internal Server Error",
    json := some { message := some "Database connection lost" } }

/-- Fixture: the Laravel validation body of the C6 scenario. -/
def sample422Json : Json :=
  { errors := some [("email", ["invalid"]), ("password", ["too short"])] }

/-- Fixture: a 422 response carrying `sample422Json`. -/
def resp422 : Response := { status := 422, json := some sample422Json }

/-- Fixture: a successful login body with token and user record. -/
def loginOkJson : Json := { token := "tok1", user := { id := "u1" } }

/-- Fixture: a 200 login response carrying `loginOkJson`. -/
def respLoginOk : Response := { status := 200, json := some loginOkJson }

theorem lexLt_irrefl : ∀ x, lexLt x x = false := by
  intro x
  induction x with
  | nil => rfl
  | cons a as ih => simp [lexLt, ih]

theorem lexLt_asymm : ∀ x y, lexLt x y = true → lexLt y x = false := by
  intro x
  induction x with
  | nil =>
    intro y h
    cases y with
    | nil => simp [lexLt] at h
    | cons b bs => simp [lexLt]
  | cons a as ih =>
    intro y h
    cases y with
    | nil => simp [lexLt] at h
    | cons b bs =>
      simp only [lexLt] at h ⊢
      rcases lt_trichotomy a b with hab | hab | hab
      · rw [if_neg (lt_asymm hab), if_pos hab]
      · subst hab
        rw [if_neg (lt_irrefl a)] at h ⊢
        rw [if_neg (lt_irrefl a)] at h ⊢
        exact ih bs h
      · rw [if_neg (lt_asymm hab), if_pos hab] at h
        exact Bool.noConfusion h

theorem lexLt_antisymm : ∀ x y, lexLt x y = false → lexLt y x = false → x = y := by
  intro x
  induction x with
  | nil =>
    intro y h1 _
    cases y with
    | nil => rfl
    | cons b bs => simp [lexLt] at h1
  | cons a as ih =>
    intro y h1 h2
    cases y with
    | nil => simp [lexLt] at h2
    | cons b bs =>
      simp only [lexLt] at h1 h2
      rcases lt_trichotomy a b with hab | hab | hab
      · rw [if_pos hab] at h1
        exact Bool.noConfusion h1
      · subst hab
        rw [if_neg (lt_irrefl a), if_neg (lt_irrefl a)] at h1
        rw [if_neg (lt_irrefl a), if_neg (lt_irrefl a)] at h2
        rw [ih bs h1 h2]
      · rw [if_pos hab] at h2
        exact Bool.noConfusion h2

theorem lexLt_le_trans :
    ∀ x y z, lexLt y x = false → lexLt z y = false → lexLt z x = false := by
  intro x
  induction x with
  | nil =>
    intro y z _ _
    cases z with
    | nil => rfl
    | cons c cs => rfl
  | cons a as ih =>
    intro y z h1 h2
    cases y with
    | nil => simp [lexLt] at h1
    | cons b bs =>
      cases z with
      | nil => simp [lexLt] at h2
      | cons c cs =>
        simp only [lexLt] at h1 h2 ⊢
        have hba : ¬ b < a := by
          intro h
          rw [if_pos h] at h1
          exact Bool.noConfusion h1
        have hcb : ¬ c < b := by
          intro h
          rw [if_pos h] at h2
          exact Bool.noConfusion h2
        have hca : ¬ c < a := by
          intro h
          exact hcb (lt_of_lt_of_le h (not_lt.mp hba))
        rw [if_neg hca]
        by_cases hac : a < c
        · rw [if_pos hac]
        · rw [if_neg hac]
          have hab : a ≤ b := not_lt.mp hba
          have hbc : b ≤ c := not_lt.mp hcb
          have hceq : a = c := le_antisymm (hab.trans hbc) (not_lt.mp hac)
          have hbeq : a = b := le_antisymm hab (hbc.trans_eq hceq.symm)
          rw [if_neg (hbeq ▸ lt_irrefl a), if_neg (hbeq ▸ lt_irrefl a)] at h1
          rw [if_neg (hceq ▸ hbeq ▸ lt_irrefl a)] at h2
          rw [if_neg (hceq ▸ hbeq ▸ lt_irrefl a)] at h2
          exact ih bs cs h1 h2

theorem string_data_inj (a b : String) (h : a.data = b.data) : a = b := by
  cases a
  cases b
  exact congrArg String.mk h

theorem localeCompare_nonpos_iff (x y : String) :
    localeCompare x y ≤ 0 ↔ lexLt y.data x.data = false := by
  unfold localeCompare
  by_cases h1 : lexLt x.data y.data = true
  · rw [if_pos h1]
    rw [lexLt_asymm _ _ h1]
    constructor
    · intro _
      rfl
    · intro _
      decide
  · rw [if_neg h1]
    by_cases h2 : lexLt y.data x.data = true
    · rw [if_pos h2, h2]
      constructor
      · intro h
        exact absurd h (by decide)
      · intro h
        exact Bool.noConfusion h
    · rw [if_neg h2]
      rw [Bool.not_eq_true] at h2
      rw [h2]
      constructor
      · intro _
        rfl
      · intro _
        decide

theorem localeCompare_neg_iff (x y : String) :
    localeCompare x y < 0 ↔ lexLt x.data y.data = true := by
  unfold localeCompare
  by_cases h1 : lexLt x.data y.data = true
  · rw [if_pos h1, h1]
    constructor
    · intro _
      rfl
    · intro _
      decide
  · rw [if_neg h1]
    rw [Bool.not_eq_true] at h1
    rw [h1]
    by_cases h2 : lexLt y.data x.data = true
    · rw [if_pos h2]
      constructor
      · intro h
        exact absurd h (by decide)
      · intro h
        exact Bool.noConfusion h
    · rw [if_neg h2]
      constructor
      · intro h
        exact absurd h (by decide)
      · intro h
        exact Bool.noConfusion h

theorem sortRel_asc_iff {α : Type} (k : String) (proj : α → String → String)
    (a b : α) :
    sortRel .asc k proj a b ↔ lexLt (proj b k).data (proj a k).data = false := by
  unfold sortRel sortComparator
  exact localeCompare_nonpos_iff (proj a k) (proj b k)

theorem sortRel_desc_iff {α : Type} (k : String) (proj : α → String → String)
    (a b : α) :
    sortRel .desc k proj a b ↔ lexLt (proj a k).data (proj b k).data = false := by
  unfold sortRel sortComparator
  exact localeCompare_nonpos_iff (proj b k) (proj a k)

theorem sortRel_total {α : Type} (dir : SortDir) (k : String)
    (proj : α → String → String) (a b : α) :
    sortRel dir k proj a b ∨ sortRel dir k proj b a := by
  cases dir
  · rw [sortRel_asc_iff, sortRel_asc_iff]
    by_cases h : lexLt (proj b k).data (proj a k).data = true
    · exact Or.inr (lexLt_asymm _ _ h)
    · exact Or.inl (Bool.not_eq_true _ ▸ h)
  · rw [sortRel_desc_iff, sortRel_desc_iff]
    by_cases h : lexLt (proj a k).data (proj b k).data = true
    · exact Or.inr (lexLt_asymm _ _ h)
    · exact Or.inl (Bool.not_eq_true _ ▸ h)

theorem sortRel_trans {α : Type} (dir : SortDir) (k : String)
    (proj : α → String → String) (a b c : α) :
    sortRel dir k proj a b → sortRel dir k proj b c → sortRel dir k proj a c := by
  cases dir
  · rw [sortRel_asc_iff, sortRel_asc_iff, sortRel_asc_iff]
    intro h1 h2
    exact lexLt_le_trans _ _ _ h1 h2
  · rw [sortRel_desc_iff, sortRel_desc_iff, sortRel_desc_iff]
    intro h1 h2
    exact lexLt_le_trans _ _ _ h2 h1

theorem pairwise_perm_eq {α : Type} {r : α → α → Prop}
    (hasym : ∀ a b, r a b → r b a → False) :
    ∀ {l1 l2 : List α}, l1.Pairwise r → l2.Pairwise r → l1.Perm l2 → l1 = l2 := by
  intro l1
  induction l1 with
  | nil =>
    intro l2 _ _ p
    exact (p.symm.eq_nil).symm
  | cons a t ih =>
    intro l2 h1 h2 p
    cases l2 with
    | nil => exact absurd p.eq_nil (List.cons_ne_nil a t)
    | cons b t2 =>
      by_cases hab : a = b
      · subst hab
        have pt : t.Perm t2 := p.cons_inv
        have ht := ih (List.pairwise_cons.mp h1).2 (List.pairwise_cons.mp h2).2 pt
        rw [ht]
      · have hbmem : b ∈ t := by
          have hin : b ∈ a :: t := p.symm.subset (List.mem_cons_self b t2)
          rcases List.mem_cons.mp hin with h | h
          · exact absurd h.symm hab
          · exact h
        have hamem : a ∈ t2 := by
          have hin : a ∈ b :: t2 := p.subset (List.mem_cons_self a t)
          rcases List.mem_cons.mp hin with h | h
          · exact absurd h hab
          · exact h
        have rab : r a b := (List.pairwise_cons.mp h1).1 b hbmem
        have rba : r b a := (List.pairwise_cons.mp h2).1 a hamem
        exact absurd rba (fun h => hasym a b rab h)

theorem mem_joinComma_sub :
    ∀ (l : List String) (s : String), s ∈ l → s.data <:+: (joinComma l).data := by
  intro l
  induction l with
  | nil =>
    intro s h
    simp at h
  | cons a rest ih =>
    intro s h
    cases rest with
    | nil =>
      have hs : s = a := by simpa using h
      subst hs
      exact ⟨[], [], by simp [joinComma]⟩
    | cons b bs =>
      rcases List.mem_cons.mp h with h1 | h1
      · subst h1
        refine ⟨[], ", ".data ++ (joinComma (b :: bs)).data, ?_⟩
        simp [joinComma, String.data_append]
      · obtain ⟨u, v, huv⟩ := ih s h1
        refine ⟨a.data ++ ", ".data ++ u, v, ?_⟩
        simp only [joinComma, String.data_append, List.append_assoc]
        rw [← huv]
        simp [List.append_assoc]

theorem sortedItems_asc_desc {α : Type} (k : String) (proj : α → String → String)
    (l : List α) (hdist : l.Pairwise fun a b => proj a k ≠ proj b k) :
    (sortedItems ⟨k, .asc⟩ proj l).Perm l ∧
    (sortedItems ⟨k, .asc⟩ proj l).Pairwise
      (fun a b => localeCompare (proj a k) (proj b k) < 0) ∧
    sortedItems ⟨k, .desc⟩ proj l = (sortedItems ⟨k, .asc⟩ proj l).reverse := by
  haveI ta : IsTotal α (sortRel .asc k proj) := ⟨sortRel_total .asc k proj⟩
  haveI tra : IsTrans α (sortRel .asc k proj) := ⟨sortRel_trans .asc k proj⟩
  haveI td : IsTotal α (sortRel .desc k proj) := ⟨sortRel_total .desc k proj⟩
  haveI trd : IsTrans α (sortRel .desc k proj) := ⟨sortRel_trans .desc k proj⟩
  have pasc : (sortedItems ⟨k, .asc⟩ proj l).Perm l :=
    List.perm_insertionSort _ l
  have pdesc : (sortedItems ⟨k, .desc⟩ proj l).Perm l :=
    List.perm_insertionSort _ l
  have hne : Symmetric (fun a b : α => proj a k ≠ proj b k) :=
    fun _ _ h => fun he => h he.symm
  have dasc : (sortedItems ⟨k, .asc⟩ proj l).Pairwise
      (fun a b => proj a k ≠ proj b k) :=
    (pasc.pairwise_iff (fun h => hne h)).mpr hdist
  have ddesc : (sortedItems ⟨k, .desc⟩ proj l).Pairwise
      (fun a b => proj a k ≠ proj b k) :=
    (pdesc.pairwise_iff (fun h => hne h)).mpr hdist
  have sasc : (sortedItems ⟨k, .asc⟩ proj l).Pairwise (sortRel .asc k proj) :=
    List.sorted_insertionSort _ l
  have sdesc : (sortedItems ⟨k, .desc⟩ proj l).Pairwise (sortRel .desc k proj) :=
    List.sorted_insertionSort _ l
  have strictLex : (sortedItems ⟨k, .asc⟩ proj l).Pairwise
      (fun a b => lexLt (proj a k).data (proj b k).data = true) := by
    refine (sasc.and dasc).imp ?_
    intro a b hab
    rcases hab with ⟨hle, hne2⟩
    rw [sortRel_asc_iff] at hle
    cases hcase : lexLt (proj a k).data (proj b k).data
    · exact absurd (string_data_inj _ _ (lexLt_antisymm _ _ hcase hle)) hne2
    · rfl
  have strictCompare : (sortedItems ⟨k, .asc⟩ proj l).Pairwise
      (fun a b => localeCompare (proj a k) (proj b k) < 0) := by
    refine strictLex.imp ?_
    intro a b hab
    exact (localeCompare_neg_iff _ _).mpr hab
  have strictDesc : (sortedItems ⟨k, .desc⟩ proj l).Pairwise
      (fun a b => lexLt (proj b k).data (proj a k).data = true) := by
    refine (sdesc.and ddesc).imp ?_
    intro a b hab
    rcases hab with ⟨hle, hne2⟩
    rw [sortRel_desc_iff] at hle
    cases hcase : lexLt (proj b k).data (proj a k).data
    · exact absurd (string_data_inj _ _ (lexLt_antisymm _ _ hle hcase)) hne2
    · rfl
  have revStrict : (sortedItems ⟨k, .asc⟩ proj l).reverse.Pairwise
      (fun a b => lexLt (proj b k).data (proj a k).data = true) :=
    List.pairwise_reverse.mpr strictLex
  have pr : (sortedItems ⟨k, .desc⟩ proj l).Perm
      ((sortedItems ⟨k, .asc⟩ proj l).reverse) :=
    (pdesc.trans pasc.symm).trans (sortedItems ⟨k, .asc⟩ proj l).reverse_perm.symm
  have gtAsymm : ∀ a b : α,
      lexLt (proj b k).data (proj a k).data = true →
      lexLt (proj a k).data (proj b k).data = true → False :=
    fun _ _ h1 h2 => Bool.noConfusion ((lexLt_asymm _ _ h2).symm.trans h1)
  exact ⟨pasc, strictCompare, pairwise_perm_eq gtAsymm strictDesc revStrict pr⟩

theorem lowIsStudent_empty : lowIsStudent "" = false := by
  decide

theorem optRoleHolds_iff (o : Option String) :
    optRoleHolds o = true ↔ ∃ s, lowIsStudent s = true ∧ o = some s := by
  cases o with
  | none => simp [optRoleHolds]
  | some p =>
    simp only [optRoleHolds, Bool.and_eq_true, Bool.not_eq_true']
    constructor
    · rintro ⟨_, hlow⟩
      exact ⟨p, hlow, rfl⟩
    · rintro ⟨s, hlow, heq⟩
      have hsp : s = p := by
        injection heq with h
        exact h.symm
      subst hsp
      refine ⟨?_, hlow⟩
      by_cases hp : s = ""
      · subst hp
        exact absurd hlow (by rw [lowIsStudent_empty]; decide)
      · exact beq_false_of_ne hp

theorem isStudent_some_eq (u : UserRecord) :
    isStudent (some u) =
      ((u.roles.getD []).any lowIsStudent ||
       (u.user_roles.getD []).any lowIsStudent ||
       optRoleHolds u.primary_role || optRoleHolds u.role) := by
  obtain ⟨i, r1, r2, q1, q2⟩ := u
  cases r1 <;> cases r2 <;> cases q1 <;> cases q2 <;> rfl

/-- Claim C1, counterexample: on a 401 gateway response all three effects do
occur, but the rejection is observable last, not first — the code awaits
`logout()` (which removes the token and user data and clears the flag) before
throwing the session-expired error.  At this concrete input the trace is
token removal, user-data removal, flag change, rejection, so the claimed order
(rejection before flag change) is false. -/
theorem c1_counterexample :
    (authenticatedFetch tokStore trueSession (.resp resp401) (.resp resp200)).trace
      = [.storeRemove "authToken", .storeRemove "userData",
         .flagSet false, .reject sessionExpiredMessage] ∧
    ¬ ((authenticatedFetch tokStore trueSession (.resp resp401) (.resp resp200)).trace.indexOf
          (Ev.reject sessionExpiredMessage) <
        (authenticatedFetch tokStore trueSession (.resp resp401) (.resp resp200)).trace.indexOf
          (Ev.flagSet false)) :=
  ⟨rfl, by decide⟩

/-- Claim C1 (amended): for every gateway request with a stored (truthy) token
whose response has HTTP status 401, and whose logout network call returns a
response, the call rejects with the session-expired error, `isAuthenticated`
becomes false, and both stored keys are removed — with the token removal
observable first, then the user-data removal, then the flag change, and the
rejection last. -/
theorem c1_authenticatedFetch_401 (store : Store) (session : SessionState)
    (r lr : Response) (h401 : r.status = 401)
    (htok : jsTruthyStr store.authToken = true) :
    (authenticatedFetch store session (.resp r) (.resp lr)).result
        = .error sessionExpiredMessage ∧
    (authenticatedFetch store session (.resp r) (.resp lr)).session.isAuthenticated
        = some false ∧
    (authenticatedFetch store session (.resp r) (.resp lr)).store.authToken = none ∧
    (authenticatedFetch store session (.resp r) (.resp lr)).store.userData = none ∧
    (authenticatedFetch store session (.resp r) (.resp lr)).trace
        = [.storeRemove "authToken", .storeRemove "userData",
           .flagSet false, .reject sessionExpiredMessage] := by
  simp [authenticatedFetch, logout, h401, htok]

/-- Witness for `c1_authenticatedFetch_401` at a concrete 401 response. -/
theorem c1_authenticatedFetch_401_witness :
    resp401.status = 401 ∧ jsTruthyStr tokStore.authToken = true ∧
    ((authenticatedFetch tokStore trueSession (.resp resp401) (.resp resp200)).result
        = .error sessionExpiredMessage ∧
     (authenticatedFetch tokStore trueSession (.resp resp401) (.resp resp200)).session.isAuthenticated
        = some false ∧
     (authenticatedFetch tokStore trueSession (.resp resp401) (.resp resp200)).store.authToken = none ∧
     (authenticatedFetch tokStore trueSession (.resp resp401) (.resp resp200)).store.userData = none ∧
     (authenticatedFetch tokStore trueSession (.resp resp401) (.resp resp200)).trace
        = [.storeRemove "authToken", .storeRemove "userData",
           .flagSet false, .reject sessionExpiredMessage]) :=
  ⟨rfl, rfl, c1_authenticatedFetch_401 tokStore trueSession resp401 resp200 rfl rfl⟩

/-- Claim C2, counterexample: with a stored token whose user fetch fails (a
thrown network error), `checkAuthStatus` does not leave the state authenticated
— its `catch` sets `isAuthenticated` to `false`.  The claimed final state
`isAuthenticated = true` is false at this input. -/
theorem c2_counterexample :
    (checkAuthStatus { authToken := some "staletok", userData := none }
        nullSession (.netThrow "Network request failed") (.resp resp200)).session.isAuthenticated
      = some false ∧
    (checkAuthStatus { authToken := some "staletok", userData := none }
        nullSession (.netThrow "Network request failed") (.resp resp200)).session.user
      = none ∧
    ¬ ((checkAuthStatus { authToken := some "staletok", userData := none }
        nullSession (.netThrow "Network request failed") (.resp resp200)).session.isAuthenticated
      = some true) :=
  ⟨rfl, rfl, by decide⟩

/-- Claim C2 (amended): if the startup probe finds a stored (truthy) token and
the user-record fetch fails in any way — a thrown network error, a 401 (which
additionally triggers the gateway's forced logout), another non-success HTTP
status, or an unparsable body — the error propagates from `fetchUser` (which
rethrows after logging) into `checkAuthStatus`, whose catch handler sets
`isAuthenticated` to false; afterwards the state reports not-authenticated with
the user field unchanged (still null if it started null). -/
theorem c2_checkAuthStatus_failed_fetch (store : Store) (session : SessionState)
    (net lnet : FetchOutcome)
    (htok : jsTruthyStr store.authToken = true)
    (hfail : ∀ r, net = .resp r → r.status = 401 ∨ r.ok = false ∨ r.json = none) :
    (checkAuthStatus store session net lnet).session.isAuthenticated
      = some false ∧
    (checkAuthStatus store session net lnet).session.user = session.user := by
  cases net with
  | netThrow e => simp [checkAuthStatus, fetchUser, authenticatedFetch, htok]
  | resp r =>
    by_cases h401 : r.status = 401
    · cases lnet with
      | resp lr =>
          simp [checkAuthStatus, fetchUser, authenticatedFetch, logout, htok, h401]
      | netThrow le =>
          simp [checkAuthStatus, fetchUser, authenticatedFetch, logout, htok, h401]
    · rcases hfail r rfl with h | h | h
      · exact absurd h h401
      · simp [checkAuthStatus, fetchUser, authenticatedFetch, htok, h401, h]
      · by_cases hok : r.ok = true
        · simp [checkAuthStatus, fetchUser, authenticatedFetch, htok, h401, h, hok]
        · have hok2 : r.ok = false := by
            cases hr : r.ok
            · rfl
            · exact absurd hr hok
          simp [checkAuthStatus, fetchUser, authenticatedFetch, htok, h401, hok2]

/-- Witness for `c2_checkAuthStatus_failed_fetch` at the stale-token scenario:
the stored token is rejected with 401 by `/api/user` at startup. -/
theorem c2_checkAuthStatus_failed_fetch_witness :
    jsTruthyStr tokStore.authToken = true ∧
    (∀ r, FetchOutcome.resp resp401 = .resp r →
      r.status = 401 ∨ r.ok = false ∨ r.json = none) ∧
    ((checkAuthStatus tokStore nullSession (.resp resp401)
        (.resp resp200)).session.isAuthenticated = some false ∧
     (checkAuthStatus tokStore nullSession (.resp resp401)
        (.resp resp200)).session.user = nullSession.user) :=
  ⟨rfl, by intro r h; cases h; exact Or.inl rfl,
    c2_checkAuthStatus_failed_fetch tokStore nullSession (.resp resp401)
      (.resp resp200) rfl (by intro r h; cases h; exact Or.inl rfl)⟩

/-- Claim C3, counterexample: for a non-401 error response whose JSON body has
a message field, the call does not fail with that message — it fails with the
generic `API Error: status statusText` string; the body message is only
logged. -/
theorem c3_counterexample :
    (authenticatedFetch tokStore trueSession (.resp resp500msg) (.resp resp200)).result
      = .error "API Error: 500 Internal Server Error" ∧
    ("API Error: 500 Internal Server Error" : String) ≠ "Database connection lost" :=
  ⟨rfl, by decide⟩

/-- Claim C3 (amended): for every gateway request whose response status is
neither 401 nor in the success range, the call fails with the generic
HTTP-error message carrying the status code and status text; a message field in
the JSON error body is never used for the rejection. -/
theorem c3_apiError_generic (store : Store) (session : SessionState)
    (r : Response) (lnet : FetchOutcome) (h401 : r.status ≠ 401)
    (hok : r.ok = false) :
    (authenticatedFetch store session (.resp r) lnet).result
      = .error (apiErrorMessage r) := by
  simp [authenticatedFetch, h401, hok]

/-- Witness for `c3_apiError_generic` at a concrete 500 response with a body
message. -/
theorem c3_apiError_generic_witness :
    resp500msg.status ≠ 401 ∧ resp500msg.ok = false ∧
    (authenticatedFetch tokStore trueSession (.resp resp500msg) (.resp resp200)).result
      = .error (apiErrorMessage resp500msg) :=
  ⟨by decide, rfl,
    c3_apiError_generic tokStore trueSession resp500msg (.resp resp200)
      (by decide) rfl⟩

/-- Claim C4, counterexample: a successful login sets the flag and persists the
token and user snapshot, but it does not set the session's in-memory user
field — `login` never calls `setUser`, so `user` stays null rather than
becoming the returned record. -/
theorem c4_counterexample :
    (login emptyStore falseSession "a@b.c" "pw" (.resp respLoginOk)).result
      = .ok () ∧
    (login emptyStore falseSession "a@b.c" "pw" (.resp respLoginOk)).session.isAuthenticated
      = some true ∧
    (login emptyStore falseSession "a@b.c" "pw" (.resp respLoginOk)).store.authToken
      = some "tok1" ∧
    (login emptyStore falseSession "a@b.c" "pw" (.resp respLoginOk)).session.user
      = none ∧
    ¬ ((login emptyStore falseSession "a@b.c" "pw" (.resp respLoginOk)).session.user
      = some { id := "u1" }) :=
  ⟨rfl, rfl, rfl, rfl, by decide⟩

/-- Claim C4 (amended): for every successful `login(email, password)`,
`isAuthenticated` becomes true and the token plus a snapshot of the returned
user record are persisted to storage; the session's in-memory user field is
left unchanged (it is populated only by `fetchUser`). -/
theorem c4_login_success (store : Store) (session : SessionState)
    (email password : String) (r : Response) (d : Json)
    (hjson : r.json = some d) (hok : r.ok = true) :
    (login store session email password (.resp r)).result = .ok () ∧
    (login store session email password (.resp r)).session.isAuthenticated
      = some true ∧
    (login store session email password (.resp r)).session.user = session.user ∧
    (login store session email password (.resp r)).store.authToken
      = some d.token ∧
    (login store session email password (.resp r)).store.userData
      = some (stringifyUser d.user) := by
  simp [login, hjson, hok]

/-- Witness for `c4_login_success` at a concrete successful login. -/
theorem c4_login_success_witness :
    respLoginOk.json = some loginOkJson ∧ respLoginOk.ok = true ∧
    ((login emptyStore falseSession "a@b.c" "pw" (.resp respLoginOk)).result
        = .ok () ∧
     (login emptyStore falseSession "a@b.c" "pw" (.resp respLoginOk)).session.isAuthenticated
        = some true ∧
     (login emptyStore falseSession "a@b.c" "pw" (.resp respLoginOk)).session.user
        = falseSession.user ∧
     (login emptyStore falseSession "a@b.c" "pw" (.resp respLoginOk)).store.authToken
        = some loginOkJson.token ∧
     (login emptyStore falseSession "a@b.c" "pw" (.resp respLoginOk)).store.userData
        = some (stringifyUser loginOkJson.user)) :=
  ⟨rfl, rfl,
    c4_login_success emptyStore falseSession "a@b.c" "pw" respLoginOk loginOkJson
      rfl rfl⟩

/-- Claim C5, counterexample: when no token is stored but leftover user data
is, `logout()` returns early after only clearing the flag — the user-data key
is still present afterwards, so the claim that both keys always read back
null/absent after any `logout()` invocation is false. -/
theorem c5_counterexample :
    (logout leftoverStore trueSession (.resp resp200)).session.isAuthenticated
      = some false ∧
    (logout leftoverStore trueSession (.resp resp200)).store.userData
      = some "leftover" ∧
    ¬ ((logout leftoverStore trueSession (.resp resp200)).store.userData = none) :=
  ⟨rfl, rfl, by decide⟩

/-- Claim C5 (amended): for every invocation of `logout()` from a state with a
stored (truthy) token — whether the network call returns a success, returns a
non-2xx status, or throws — afterwards both storage keys are absent and
`isAuthenticated` is false; when no token is stored, `logout` only sets the
flag to false and leaves the user-data key untouched. -/
theorem c5_logout_clears (store : Store) (session : SessionState)
    (net : FetchOutcome) (htok : jsTruthyStr store.authToken = true) :
    (logout store session net).store.authToken = none ∧
    (logout store session net).store.userData = none ∧
    (logout store session net).session.isAuthenticated = some false := by
  cases net <;> simp [logout, htok]

/-- Witness for `c5_logout_clears` with a throwing network call. -/
theorem c5_logout_clears_witness :
    jsTruthyStr tokStore.authToken = true ∧
    ((logout tokStore trueSession (.netThrow "Network request failed")).store.authToken
        = none ∧
     (logout tokStore trueSession (.netThrow "Network request failed")).store.userData
        = none ∧
     (logout tokStore trueSession (.netThrow "Network request failed")).session.isAuthenticated
        = some false) :=
  ⟨rfl, c5_logout_clears tokStore trueSession (.netThrow "Network request failed") rfl⟩

/-- Claim C6: when the login endpoint responds 422 with a field-keyed errors
map, `login` rejects with the flattened, comma-joined error strings
(`Object.values(data.errors).flat().join(", ")`), and that message contains
every error string from every field of the map. -/
theorem c6_login_422_errors (store : Store) (session : SessionState)
    (email password : String) (r : Response) (d : Json)
    (h422 : r.status = 422) (hjson : r.json = some d) :
    (login store session email password (.resp r)).result
      = .error (validationErrorsMessage d) ∧
    ∀ s ∈ ((d.errors.getD []).map Prod.snd).flatten,
      s.data <:+: (validationErrorsMessage d).data := by
  have hok : r.ok = false := by
    unfold Response.ok
    rw [h422]
    decide
  constructor
  · simp [login, hjson, hok, h422]
  · intro s hs
    unfold validationErrorsMessage
    exact mem_joinComma_sub _ s hs

/-- Witness for `c6_login_422_errors` at the spec's example map
`(errors: (email: ["invalid"], password: ["too short"]))`: the rejection
message is "invalid, too short" and contains both strings. -/
theorem c6_login_422_errors_witness :
    resp422.status = 422 ∧ resp422.json = some sample422Json ∧
    (login emptyStore falseSession "a@b.c" "pw" (.resp resp422)).result
      = .error "invalid, too short" ∧
    "invalid".data <:+: ("invalid, too short" : String).data ∧
    "too short".data <:+: ("invalid, too short" : String).data := by
  refine ⟨rfl, rfl, ?_, ?_, ?_⟩
  · exact (c6_login_422_errors emptyStore falseSession "a@b.c" "pw" resp422
      sample422Json rfl rfl).1
  · exact (c6_login_422_errors emptyStore falseSession "a@b.c" "pw" resp422
      sample422Json rfl rfl).2 "invalid" (by decide)
  · exact (c6_login_422_errors emptyStore falseSession "a@b.c" "pw" resp422
      sample422Json rfl rfl).2 "too short" (by decide)

/-- Claim C7: `getAuthHeaders()` reflects the most recently stored token and
never caches — after storing token `a` the Authorization header is
"Bearer a", and after overwriting with `b` (no restart) it is "Bearer b". -/
theorem c7_getAuthHeaders_fresh (store : Store) (a b : String) :
    (getAuthHeaders (setAuthToken store a)).authorization = "Bearer " ++ a ∧
    (getAuthHeaders (setAuthToken (setAuthToken store a) b)).authorization
      = "Bearer " ++ b :=
  ⟨rfl, rfl⟩

/-- Claim C8, counterexample: on the groups screen the initial sort state is
already ascending by name, so the first activation of the name control toggles
to descending — it does not yield ascending order.  With items "alpha" < "beta"
the displayed order after one activation is ["beta", "alpha"]. -/
theorem c8_counterexample :
    sortedItems (handleSort groupsInitialSort "name") projId ["alpha", "beta"]
      = ["beta", "alpha"] ∧
    sortedItems (handleSort groupsInitialSort "name") projId ["alpha", "beta"]
      ≠ ["alpha", "beta"] :=
  ⟨rfl, by decide⟩

/-- Claim C8 (amended): for any fetched collection with pairwise-distinct
sort-key values, activating a sort control whose key differs from the current
sort key yields the items in ascending lexical order of that key (a permutation
of the input, pairwise strictly ascending), and activating the same control
again yields exactly the reverse; when the control's key is already the current
sort key the first activation instead toggles the current direction (as on the
groups screen's initial ascending-by-name state). -/
theorem c8_sort_toggle {α : Type} (s : SortState) (k : String)
    (proj : α → String → String) (l : List α) (hk : k ≠ s.sortKey)
    (hdist : l.Pairwise fun a b => proj a k ≠ proj b k) :
    (sortedItems (handleSort s k) proj l).Perm l ∧
    (sortedItems (handleSort s k) proj l).Pairwise
      (fun a b => localeCompare (proj a k) (proj b k) < 0) ∧
    sortedItems (handleSort (handleSort s k) k) proj l
      = (sortedItems (handleSort s k) proj l).reverse := by
  have h1 : handleSort s k = { sortKey := k, sortDirection := .asc } := by
    simp [handleSort, Ne.symm hk]
  have h2 : handleSort { sortKey := k, sortDirection := SortDir.asc } k
      = { sortKey := k, sortDirection := .desc } := by
    simp [handleSort]
  rw [h1, h2]
  exact sortedItems_asc_desc k proj l hdist

/-- Witness for `c8_sort_toggle`: pressing the title control from the groups
screen's initial state (sorted by name) sorts ["b", "a", "c"] ascending, and a
second press reverses it. -/
theorem c8_sort_toggle_witness :
    ("title" : String) ≠ groupsInitialSort.sortKey ∧
    List.Pairwise (fun a b => projId a "title" ≠ projId b "title")
      ["b", "a", "c"] ∧
    ((sortedItems (handleSort groupsInitialSort "title") projId
        ["b", "a", "c"]).Perm ["b", "a", "c"] ∧
     (sortedItems (handleSort groupsInitialSort "title") projId
        ["b", "a", "c"]).Pairwise
        (fun a b => localeCompare (projId a "title") (projId b "title") < 0) ∧
     sortedItems (handleSort (handleSort groupsInitialSort "title") "title")
        projId ["b", "a", "c"]
       = (sortedItems (handleSort groupsInitialSort "title") projId
          ["b", "a", "c"]).reverse) :=
  ⟨by decide, by decide,
    c8_sort_toggle groupsInitialSort "title" projId ["b", "a", "c"]
      (by decide) (by decide)⟩

/-- Claim C9: the student-role probe classifies a (non-null) user as a student
exactly when at least one of the four alternate role fields holds the student
role case-insensitively — an entry of `roles[]`, an entry of `user_roles[]`,
the `primary_role` value, or the legacy `role` value. -/
theorem c9_isStudent_iff (u : UserRecord) :
    isStudent (some u) = true ↔
      ∃ s, lowIsStudent s = true ∧
        (s ∈ u.roles.getD [] ∨ s ∈ u.user_roles.getD [] ∨
         u.primary_role = some s ∨ u.role = some s) := by
  rw [isStudent_some_eq]
  simp only [Bool.or_eq_true, List.any_eq_true, optRoleHolds_iff]
  constructor
  · rintro (((⟨s, hs, hlow⟩ | ⟨s, hs, hlow⟩) | ⟨s, hlow, heq⟩) | ⟨s, hlow, heq⟩)
    exacts [⟨s, hlow, Or.inl hs⟩, ⟨s, hlow, Or.inr (Or.inl hs)⟩,
            ⟨s, hlow, Or.inr (Or.inr (Or.inl heq))⟩,
            ⟨s, hlow, Or.inr (Or.inr (Or.inr heq))⟩]
  · rintro ⟨s, hlow, (hs | hs | hs | hs)⟩
    exacts [Or.inl (Or.inl (Or.inl ⟨s, hs, hlow⟩)),
            Or.inl (Or.inl (Or.inr ⟨s, hs, hlow⟩)),
            Or.inl (Or.inr ⟨s, hlow, hs⟩),
            Or.inr ⟨s, hlow, hs⟩]

/-- Claim C10: when no token is stored, `getAuthHeaders()` neither omits nor
fails the Authorization header — the template literal renders the JS `null` as
text, producing the literal value "Bearer null". -/
theorem c10_bearer_null (store : Store) (h : store.authToken = none) :
    getAuthHeaders store
      = { contentType := "application/json", accept := "application/json",
          authorization := "Bearer null" } := by
  simp [getAuthHeaders, h]

/-- Witness for `c10_bearer_null` at the empty store. -/
theorem c10_bearer_null_witness :
    emptyStore.authToken = none ∧
    getAuthHeaders emptyStore
      = { contentType := "application/json", accept := "application/json",
          authorization := "Bearer null" } :=
  ⟨rfl, c10_bearer_null emptyStore rfl⟩
